import Mathlib

/-!
Verification of the timed test-session protocol of the SmartEdu (EduVerge)
repository, shallowly embedded in Lean 4.

Embedded source files:
* `src/utils/testTimer.ts` — session resolver with conflict retry,
  `calculateRemainingTime` (ceiling form), `isTimeExpired`,
  `completeTestSession`.
* `src/components/testTimer.ts` — the retry-less parallel resolver and its
  `calculateRemainingTime` (floor form).
* `src/components/TestTaking.tsx` — countdown driver (timer `useEffect`),
  `submitTest`.

Timestamps are integer milliseconds (`Int`), matching `Date.getTime()` /
`Date.now()` on whole-millisecond values.  Store interaction is embedded by
passing the store state (a list of rows) explicitly and by oracles that fix
the store's error responses; the uniqueness constraint of the remote store
is part of the concurrent step relation.
-/

namespace SmartEdu

/-- `TestSession` row, from the `TestSession` interface of
`src/utils/testTimer.ts` (identical in `src/components/testTimer.ts`).
String timestamps of the source are embedded as integer milliseconds. -/
structure TestSession where
  id : String
  assessment_id : String
  student_id : String
  started_at : Int
  submitted_at : Option Int
  duration_minutes : Nat
  is_completed : Bool
  created_at : Int
deriving DecidableEq, Repr

/-- The store lookup used throughout `getOrCreateTestSession`:
`.eq('assessment_id', aid).eq('student_id', sid).eq('is_completed', false)
.maybeSingle()`. -/
def findActive (store : List TestSession) (aid sid : String) :
    Option TestSession :=
  store.find? fun s =>
    s.assessment_id == aid && s.student_id == sid && s.is_completed == false

/-- Floor division by 1000, as `Math.floor(x / 1000)` on integer `x`. -/
def floorDiv1000 (x : Int) : Int := Int.fdiv x 1000

/-- Ceiling division by 1000, as `Math.ceil(x / 1000)` on integer `x`. -/
def ceilDiv1000 (x : Int) : Int := -Int.fdiv (-x) 1000

/-- `calculateRemainingTime` from `src/utils/testTimer.ts` (lines 175–188):
`remaining = max(0, startTime + durationMinutes*60*1000 - now)`, returned as
`Math.ceil(remaining / 1000)`.  `now` (the source's `Date.now()`) is an
explicit parameter. -/
def calculateRemainingTime (session : TestSession) (now : Int) : Int :=
  let startTime := session.started_at
  let durationMs := (session.duration_minutes : Int) * 60 * 1000
  let endTime := startTime + durationMs
  let remaining := max 0 (endTime - now)
  ceilDiv1000 remaining

/-- `isTimeExpired` from `src/utils/testTimer.ts` (lines 193–196):
`calculateRemainingTime(session) <= 0`. -/
def isTimeExpired (session : TestSession) (now : Int) : Bool :=
  calculateRemainingTime session now ≤ 0

/-- `calculateRemainingTime` from `src/components/testTimer.ts`
(lines 82–90): `max(0, durationMinutes*60 - floor((now - startedAt)/1000))`. -/
def calculateRemainingTime2 (session : TestSession) (now : Int) : Int :=
  let startTime := session.started_at
  let elapsedSeconds := floorDiv1000 (now - startTime)
  let totalSeconds := (session.duration_minutes : Int) * 60
  max 0 (totalSeconds - elapsedSeconds)

/-- Distinguishable store error classes, from §6 of the source's behavior:
`conflict` is a uniqueness-constraint violation (`code === '23505'` or a
`details` string containing `duplicate`); `other` covers every remaining
store failure. -/
inductive StoreErr where
  | conflict
  | other (msg : String)
deriving DecidableEq, Repr

/-- Errors thrown out of the two `getOrCreateTestSession` implementations:
the authentication guard, a raw store error re-thrown to the caller, or a
freshly constructed generic `Error(msg)`. -/
inductive ResolveErr where
  | notAuthenticated
  | store (e : StoreErr)
  | generic (msg : String)
deriving DecidableEq, Repr

/-- Observable outcome of one resolver run: the returned-or-thrown value,
the resulting store contents, how many `createSession` (insert) attempts
were performed, and the backoff waits (in ms) in order. -/
structure ResolveResult where
  result : Except ResolveErr TestSession
  store : List TestSession
  creates : Nat
  delays : List Nat
deriving Repr

/-- The row built by the insert in both implementations:
`{assessment_id, student_id, started_at: new Date().toISOString(),
duration_minutes, is_completed: false}`; `id` and `created_at` are
store-assigned (parameters here). -/
def mkNewSession (freshId aid sid : String) (now : Int) (dur : Nat) :
    TestSession :=
  { id := freshId, assessment_id := aid, student_id := sid,
    started_at := now, submitted_at := none, duration_minutes := dur,
    is_completed := false, created_at := now }

/-- The wait before a retry: `200 * Math.pow(2, attempt - 1)` ms
(`src/utils/testTimer.ts` lines 89 and 129). -/
def backoffMs (attempt : Nat) : Nat := 200 * 2 ^ (attempt - 1)

/-- The `for (attempt = 1; attempt <= 3; ...)` creation loop of
`src/utils/testTimer.ts` (lines 57–163), followed by the final
unconditional re-query (STEP 3, lines 137–163).  `oracle attempt` is the
store's response to the insert of that attempt (`none` = success).
Control flow mirrors the source exactly:
* insert success: the row is appended and returned (the loop's `break`
  followed by `return session`);
* insert conflict (`23505`/duplicate): record `lastError`, wait
  `backoffMs attempt`, re-query; if a session is found return it, else
  `continue` with the next attempt;
* any other insert error: `throw createError` is caught by the loop's own
  `catch`, which records `lastError` and, only when `attempt < 3`, waits
  `backoffMs attempt` before the next iteration;
* loop exhausted with no session: one final re-query; if it finds a
  session return it, else `throw lastError` (or a generic error when no
  error was recorded).
`attemptsLeft` counts the remaining loop iterations (3 at entry), and
`attempt` is the source's 1-based loop counter. -/
def resolveLoop (oracle : Nat → Option StoreErr) (aid sid : String)
    (fresh : TestSession) (attemptsLeft attempt : Nat)
    (store : List TestSession) (lastErr : Option StoreErr) (creates : Nat)
    (delays : List Nat) : ResolveResult :=
  match attemptsLeft with
  | 0 =>
      match findActive store aid sid with
      | some s => ⟨.ok s, store, creates, delays⟩
      | none =>
        match lastErr with
        | some e => ⟨.error (.store e), store, creates, delays⟩
        | none =>
            ⟨.error (.generic "Failed to create or retrieve test session"),
              store, creates, delays⟩
  | n + 1 =>
      match oracle attempt with
      | none => ⟨.ok fresh, store ++ [fresh], creates + 1, delays⟩
      | some .conflict =>
          let delays2 := delays ++ [backoffMs attempt]
          match findActive store aid sid with
          | some s => ⟨.ok s, store, creates + 1, delays2⟩
          | none =>
              resolveLoop oracle aid sid fresh n (attempt + 1)
                store (some .conflict) (creates + 1) delays2
      | some (.other m) =>
          let delays2 :=
            if attempt < 3 then delays ++ [backoffMs attempt] else delays
          resolveLoop oracle aid sid fresh n (attempt + 1)
            store (some (.other m)) (creates + 1) delays2

lemma resolveLoop_zero (oracle : Nat → Option StoreErr) (aid sid : String)
    (fresh : TestSession) (attempt : Nat) (store : List TestSession)
    (lastErr : Option StoreErr) (creates : Nat) (delays : List Nat) :
    resolveLoop oracle aid sid fresh 0 attempt store lastErr creates delays =
      match findActive store aid sid with
      | some s => ⟨.ok s, store, creates, delays⟩
      | none =>
        match lastErr with
        | some e => ⟨.error (.store e), store, creates, delays⟩
        | none =>
            ⟨.error (.generic "Failed to create or retrieve test session"),
              store, creates, delays⟩ := rfl

lemma resolveLoop_succ (oracle : Nat → Option StoreErr) (aid sid : String)
    (fresh : TestSession) (n attempt : Nat) (store : List TestSession)
    (lastErr : Option StoreErr) (creates : Nat) (delays : List Nat) :
    resolveLoop oracle aid sid fresh (n + 1) attempt store lastErr creates
        delays =
      match oracle attempt with
      | none => ⟨.ok fresh, store ++ [fresh], creates + 1, delays⟩
      | some .conflict =>
          match findActive store aid sid with
          | some s => ⟨.ok s, store, creates + 1, delays ++ [backoffMs attempt]⟩
          | none =>
              resolveLoop oracle aid sid fresh n (attempt + 1)
                store (some .conflict) (creates + 1)
                (delays ++ [backoffMs attempt])
      | some (.other m) =>
          resolveLoop oracle aid sid fresh n (attempt + 1)
            store (some (.other m)) (creates + 1)
            (if attempt < 3 then delays ++ [backoffMs attempt] else delays) :=
  rfl

/-- `getOrCreateTestSession` from `src/utils/testTimer.ts` (lines 20–170),
the retry-capable resolver.  `user` is the ambient
`supabase.auth.getUser()` identity, `initialFetchErr` an injected
non-ignorable error of the initial existence query (line 41's
`fetchError.code !== 'PGRST116'` case), `oracle` the store's response to
each insert attempt, `freshId`/`now` the store-assigned id and the
creation timestamp. -/
def getOrCreateTestSession (user : Option String)
    (initialFetchErr : Option StoreErr) (oracle : Nat → Option StoreErr)
    (store : List TestSession) (assessmentId : String)
    (durationMinutes : Nat) (freshId : String) (now : Int) : ResolveResult :=
  match user with
  | none => ⟨.error .notAuthenticated, store, 0, []⟩
  | some uid =>
    match initialFetchErr with
    | some e => ⟨.error (.store e), store, 0, []⟩
    | none =>
      match findActive store assessmentId uid with
      | some s => ⟨.ok s, store, 0, []⟩
      | none =>
          resolveLoop oracle assessmentId uid
            (mkNewSession freshId assessmentId uid now durationMinutes)
            3 1 store none 0 []

/-- `getOrCreateTestSession` from `src/components/testTimer.ts`
(lines 19–76), the retry-less parallel implementation: auth guard, one
lookup (whose error the source ignores), one insert; on any insert
failure it throws `new Error('Failed to create test session')` — no
conflict detection, no backoff, no re-query. -/
def getOrCreateTestSession2 (user : Option String)
    (studentIdArg : Option String) (createErr : Option StoreErr)
    (store : List TestSession) (assessmentId : String)
    (durationMinutes : Nat) (freshId : String) (now : Int) : ResolveResult :=
  match user with
  | none => ⟨.error (.generic "Not authenticated"), store, 0, []⟩
  | some uid =>
    let userId := studentIdArg.getD uid
    match findActive store assessmentId userId with
    | some s => ⟨.ok s, store, 0, []⟩
    | none =>
      match createErr with
      | some _ =>
          ⟨.error (.generic "Failed to create test session"), store, 1, []⟩
      | none =>
          let fresh := mkNewSession freshId assessmentId userId now
            durationMinutes
          ⟨.ok fresh, store ++ [fresh], 1, []⟩

/-! ## Countdown driver (`src/components/TestTaking.tsx`)

The driver is embedded as a state machine over the component's state
variables that matter for the expiry/submit race: whether the recurring
interval is installed (`timerActive`), the `isTimeExpired` and `submitting`
flags, whether the success path has navigated away (`navigated`), and a
counter of `submitTest` body executions (`finalizeCount`).
Each event is processed atomically: the source runs on a single-threaded
event loop, state updates set inside a handler are flushed (and the timer
`useEffect` re-run) before the next timer or click event fires, and
`submitTest` sets `submitting` before its first suspension point.  The
asynchronous completion of an in-flight `submitTest` is its own event
(`finalizeDone`), because `submitTest` suspends between entry and its
`catch`/`finally` blocks: on success it navigates to the results view
(unmounting the component, so no further events fire); on failure the
`finally { setSubmitting(false) }` of line 196 resets `submitting`, and
the timer `useEffect` (guard line 109, deps `[testSession, isTimeExpired,
submitting]`) re-installs the interval whenever `isTimeExpired` is still
false. -/

structure DriverState where
  timerActive : Bool
  isTimeExpired : Bool
  submitting : Bool
  navigated : Bool
  finalizeCount : Nat
deriving DecidableEq, Repr

/-- The `Running` state: session resolved, time left positive, interval
installed (timer `useEffect`, lines 108–126). -/
def runningInit : DriverState :=
  { timerActive := true, isTimeExpired := false, submitting := false,
    navigated := false, finalizeCount := 0 }

/-- The first half of the expiry branch of the tick callback (lines
114–118): `setIsTimeExpired(true); setTimeLeft(0); clearInterval(timer)` —
the recurring tick is disabled here, before any finalize call. -/
def suppressTick (s : DriverState) : DriverState :=
  { s with isTimeExpired := true, timerActive := false }

/-- Entering `submitTest` (lines 146–149): `setSubmitting(true)` and the
finalize work begins; the `submitting` flip also causes the timer
`useEffect` cleanup to clear any installed interval.  The later completion
of this in-flight run is a separate event, `finalizeDoneEvent`. -/
def invokeFinalize (s : DriverState) : DriverState :=
  { s with
    submitting := true
    timerActive := false
    finalizeCount := s.finalizeCount + 1 }

/-- One firing of the interval callback (lines 111–123) with the current
`remaining` value: nothing happens unless the interval is installed; on
`remaining <= 0` the tick is suppressed and `handleAutoSubmit` →
`submitTest(true)` is invoked; otherwise only the display updates. -/
def tickEvent (s : DriverState) (remaining : Int) : DriverState :=
  if s.timerActive = false then s
  else if remaining ≤ 0 then invokeFinalize (suppressTick s)
  else s

/-- `handleSubmit` (lines 137–144): `if (submitting) return`, then the
confirm dialog, then `submitTest(false)`.  After the success path has
navigated away the component is unmounted, so the click cannot occur
(no-op here). -/
def manualSubmitEvent (s : DriverState) (confirmed : Bool) : DriverState :=
  if s.navigated = true then s
  else if s.submitting = true then s
  else if confirmed = false then s
  else invokeFinalize s

/-- Completion of an in-flight `submitTest` run (lines 180–197): on
success, `navigate` to the results view — the component unmounts and its
cleanup clears any interval; on failure, the `catch` shows the error and
`finally { setSubmitting(false) }` (line 196) resets `submitting`, after
which the timer `useEffect` re-installs the interval provided
`isTimeExpired` is still false. -/
def finalizeDoneEvent (s : DriverState) (success : Bool) : DriverState :=
  if s.submitting = false then s
  else if success then
    { s with submitting := false, timerActive := false, navigated := true }
  else
    { s with
      submitting := false
      timerActive := if s.isTimeExpired = true then false else true }

inductive DriverEvent where
  | tick (remaining : Int)
  | manualSubmit (confirmed : Bool)
  | finalizeDone (success : Bool)
deriving DecidableEq, Repr

def driverStep (s : DriverState) : DriverEvent → DriverState
  | .tick r => tickEvent s r
  | .manualSubmit c => manualSubmitEvent s c
  | .finalizeDone ok => finalizeDoneEvent s ok

def runDriver (s : DriverState) : List DriverEvent → DriverState
  | [] => s
  | e :: es => runDriver (driverStep s e) es

/-! ## Submission finalizer (`submitTest` of `src/components/TestTaking.tsx`,
`completeTestSession` of `src/utils/testTimer.ts`) -/

/-- `Question` row, with the fields `submitTest` and grading read. -/
structure Question where
  id : String
  mcqType : Bool
  correct_answer : Option String
  marks : Nat
deriving DecidableEq, Repr

/-- `submissions` row inserted by `submitTest` (lines 164–178). -/
structure Submission where
  assessment_id : String
  student_id : String
  test_session_id : String
  answers : List (String × String)
  mcq_score : Nat
  theory_score : Option Nat
  total_score : Nat
  is_auto_submitted : Bool
  submitted_at : Int
deriving DecidableEq, Repr

/-- `completeTestSession` from `src/utils/testTimer.ts` (lines 201–220):
update rows with the given id to `submitted_at = now, is_completed = true`;
a store error is thrown unchanged. -/
def completeTestSession (store : List TestSession) (sessionId : String)
    (now : Int) (err : Option StoreErr) : Except StoreErr (List TestSession) :=
  match err with
  | some e => .error e
  | none => .ok (store.map fun s =>
      if s.id == sessionId then
        { s with submitted_at := some now, is_completed := true }
      else s)

/-- Modelled from the spec: `autoGradeMCQ` lives in
`src/utils/autoGrading.ts`, which is not present under `src/`; §4.4 step 2
says to "Score objective (auto-gradable) answers against the question key"
— the marks of the MCQ questions whose recorded answer matches the key are
summed. -/
def autoGradeMCQ (questions : List Question)
    (answers : List (String × String)) : Nat :=
  (questions.filter fun q =>
      q.mcqType && (answers.lookup q.id).isSome &&
        answers.lookup q.id == q.correct_answer).foldl
    (fun acc q => acc + q.marks) 0

/-- `Math.round((mcqScore / totalMarks) * 100)` on naturals
(round half away from zero, which for non-negative inputs is
`floor(x + 1/2)`). -/
def percentageScore (mcqScore totalMarks : Nat) : Nat :=
  if 0 < totalMarks then (200 * mcqScore + totalMarks) / (2 * totalMarks)
  else 0

/-- Outcome of one `submitTest` run: resulting `test_sessions` and
`submissions` tables and the returned-or-thrown value. -/
structure FinalizeResult where
  sessions : List TestSession
  submissions : List Submission
  result : Except StoreErr Submission
deriving Repr

/-- The finalize body of `submitTest` (`src/components/TestTaking.tsx`
lines 146–198): first `completeTestSession` (an error there aborts with the
tables untouched), then grading, then the `submissions` insert (an error
there is thrown with the completion already persisted), then the inserted
row is returned. -/
def submitTest (sessions : List TestSession) (submissions : List Submission)
    (assessmentId studentId : String) (session : TestSession)
    (questions : List Question) (answers : List (String × String))
    (isAutoSubmit : Bool) (now : Int)
    (completeErr insertErr : Option StoreErr) : FinalizeResult :=
  match completeTestSession sessions session.id now completeErr with
  | .error e => ⟨sessions, submissions, .error e⟩
  | .ok sessions2 =>
    let mcqScore := autoGradeMCQ questions answers
    let totalMarks := questions.foldl (fun acc q => acc + q.marks) 0
    let pct := percentageScore mcqScore totalMarks
    match insertErr with
    | some e => ⟨sessions2, submissions, .error e⟩
    | none =>
      let sub : Submission :=
        { assessment_id := assessmentId, student_id := studentId,
          test_session_id := session.id, answers := answers,
          mcq_score := mcqScore, theory_score := none, total_score := pct,
          is_auto_submitted := isAutoSubmit, submitted_at := now }
      ⟨sessions2, submissions ++ [sub], .ok sub⟩

/-! ## Concurrent session resolution

Several clients (browser tabs, rapid retries) run `getOrCreateTestSession`
of `src/utils/testTimer.ts` against one shared store for the same
(assessment, student) pair.  Each store operation is one atomic step; the
store's server-side uniqueness constraint on (assessment, student, active)
is what accepts or rejects an insert.  Client-local work (backoff sleeps,
logging) takes no step. -/

/-- The active rows of the store for one (assessment, student) pair. -/
def activeFor (store : List TestSession) (aid sid : String) :
    List TestSession :=
  store.filter fun s =>
    s.assessment_id == aid && s.student_id == sid && s.is_completed == false

/-- Program counter of one client running `getOrCreateTestSession`:
about to do the initial lookup; about to insert (attempt `a`); about to
re-query after a conflict on attempt `a`; about to do the STEP 3 final
re-query; returned a session; threw. -/
inductive ClientPC where
  | start
  | creating (attempt : Nat)
  | refetch (attempt : Nat)
  | finalFetch
  | doneOk (s : TestSession)
  | doneErr
deriving DecidableEq, Repr

/-- Shared store plus every client's program counter. -/
structure SysState where
  store : List TestSession
  clients : Nat → ClientPC

def updateClient (cl : Nat → ClientPC) (i : Nat) (pc : ClientPC) :
    Nat → ClientPC :=
  fun j => if j = i then pc else cl j

/-- One atomic store interaction of one client, mirroring
`getOrCreateTestSession` of `src/utils/testTimer.ts`: the initial lookup
(lines 33–49), an insert attempt whose fate the uniqueness constraint
decides (lines 61–117), the post-conflict re-query (lines 93–112) leading
to return, retry, or — after attempt 3 — the final re-query (lines
141–162).  `ids i` is the store-assigned id of the row client `i` would
insert; `t` the server timestamp of the insert. -/
inductive Step (aid sid : String) (dur : Nat) (ids : Nat → String) :
    SysState → SysState → Prop where
  | findFound (σ : SysState) (i : Nat) (s : TestSession)
      (hpc : σ.clients i = .start)
      (hfind : findActive σ.store aid sid = some s) :
      Step aid sid dur ids σ
        ⟨σ.store, updateClient σ.clients i (.doneOk s)⟩
  | findNone (σ : SysState) (i : Nat)
      (hpc : σ.clients i = .start)
      (hfind : findActive σ.store aid sid = none) :
      Step aid sid dur ids σ
        ⟨σ.store, updateClient σ.clients i (.creating 1)⟩
  | createOk (σ : SysState) (i : Nat) (a : Nat) (t : Int)
      (hpc : σ.clients i = .creating a)
      (hfind : findActive σ.store aid sid = none) :
      Step aid sid dur ids σ
        ⟨σ.store ++ [mkNewSession (ids i) aid sid t dur],
          updateClient σ.clients i (.doneOk (mkNewSession (ids i) aid sid t dur))⟩
  | createConflict (σ : SysState) (i : Nat) (a : Nat) (s : TestSession)
      (hpc : σ.clients i = .creating a)
      (hfind : findActive σ.store aid sid = some s) :
      Step aid sid dur ids σ
        ⟨σ.store, updateClient σ.clients i (.refetch a)⟩
  | refetchFound (σ : SysState) (i : Nat) (a : Nat) (s : TestSession)
      (hpc : σ.clients i = .refetch a)
      (hfind : findActive σ.store aid sid = some s) :
      Step aid sid dur ids σ
        ⟨σ.store, updateClient σ.clients i (.doneOk s)⟩
  | refetchNoneRetry (σ : SysState) (i : Nat) (a : Nat)
      (hpc : σ.clients i = .refetch a)
      (hfind : findActive σ.store aid sid = none) (hlt : a < 3) :
      Step aid sid dur ids σ
        ⟨σ.store, updateClient σ.clients i (.creating (a + 1))⟩
  | refetchNoneFinal (σ : SysState) (i : Nat)
      (hpc : σ.clients i = .refetch 3)
      (hfind : findActive σ.store aid sid = none) :
      Step aid sid dur ids σ
        ⟨σ.store, updateClient σ.clients i .finalFetch⟩
  | finalFound (σ : SysState) (i : Nat) (s : TestSession)
      (hpc : σ.clients i = .finalFetch)
      (hfind : findActive σ.store aid sid = some s) :
      Step aid sid dur ids σ
        ⟨σ.store, updateClient σ.clients i (.doneOk s)⟩
  | finalNone (σ : SysState) (i : Nat)
      (hpc : σ.clients i = .finalFetch)
      (hfind : findActive σ.store aid sid = none) :
      Step aid sid dur ids σ
        ⟨σ.store, updateClient σ.clients i .doneErr⟩

/-- Reflexive-transitive closure of `Step` from the initial state `σ0`. -/
inductive Reachable (aid sid : String) (dur : Nat) (ids : Nat → String)
    (σ0 : SysState) : SysState → Prop where
  | refl : Reachable aid sid dur ids σ0 σ0
  | tail (σ2 σ3 : SysState) :
      Reachable aid sid dur ids σ0 σ2 → Step aid sid dur ids σ2 σ3 →
      Reachable aid sid dur ids σ0 σ3

/-- Inductive invariant of the countdown driver along traces without a
failed finalize: finalize has run at most once; while the interval is
installed no submit is in flight and finalize has not run; once finalize
has run, either it is still in flight (`submitting`) or its success has
navigated away. -/
def DriverInv (s : DriverState) : Prop :=
  s.finalizeCount ≤ 1 ∧
  (s.timerActive = true → s.submitting = false ∧ s.finalizeCount = 0) ∧
  (1 ≤ s.finalizeCount → s.submitting = true ∨ s.navigated = true)

/-- Inductive invariant of the concurrent resolver: the store holds at most
one active row for the pair, and every session already returned to a
client is such an active row. -/
def ResolveInv (aid sid : String) (σ : SysState) : Prop :=
  (activeFor σ.store aid sid).length ≤ 1 ∧
  ∀ i s, σ.clients i = .doneOk s → s ∈ activeFor σ.store aid sid

lemma fdiv_eq_ediv_of_pos (a : Int) : Int.fdiv a 1000 = a / 1000 :=
  Int.fdiv_eq_ediv a (by norm_num)

/-- The ceiling form and the floor form of remaining time agree on every
session and every integer-millisecond instant. -/
lemma remaining_eq (session : TestSession) (now : Int) :
    calculateRemainingTime session now = calculateRemainingTime2 session now := by
  unfold calculateRemainingTime calculateRemainingTime2 ceilDiv1000 floorDiv1000
  simp only [fdiv_eq_ediv_of_pos]
  omega

lemma findActive_some (store : List TestSession) (aid sid : String)
    (s : TestSession) (h : findActive store aid sid = some s) :
    s ∈ store ∧ s.assessment_id = aid ∧ s.student_id = sid ∧
      s.is_completed = false := by
  unfold findActive at h
  have hmem := List.mem_of_find?_eq_some h
  have hp := List.find?_some h
  simp only [Bool.and_eq_true, beq_iff_eq] at hp
  exact ⟨hmem, hp.1.1, hp.1.2, hp.2⟩

lemma findActive_none (store : List TestSession) (aid sid : String)
    (h : findActive store aid sid = none) :
    activeFor store aid sid = [] := by
  unfold findActive at h
  unfold activeFor
  rw [List.find?_eq_none] at h
  rw [List.filter_eq_nil_iff]
  exact h

lemma resolveLoop_ok_not_completed (oracle : Nat → Option StoreErr)
    (aid sid : String) (fresh : TestSession)
    (hfresh : fresh.is_completed = false) :
    ∀ (n attempt : Nat) (store : List TestSession)
      (lastErr : Option StoreErr) (creates : Nat) (delays : List Nat)
      (s : TestSession),
      (resolveLoop oracle aid sid fresh n attempt store lastErr creates
        delays).result = .ok s → s.is_completed = false := by
  intro n
  induction n with
  | zero =>
      intro attempt store lastErr creates delays s h
      rw [resolveLoop_zero] at h
      cases hf : findActive store aid sid with
      | none => rw [hf] at h; cases lastErr <;> simp at h
      | some t =>
          rw [hf] at h
          simp at h
          subst h
          exact (findActive_some _ _ _ _ hf).2.2.2
  | succ n ih =>
      intro attempt store lastErr creates delays s h
      rw [resolveLoop_succ] at h
      cases ho : oracle attempt with
      | none =>
          rw [ho] at h
          simp at h
          subst h
          exact hfresh
      | some e =>
          cases e with
          | conflict =>
              rw [ho] at h
              cases hf : findActive store aid sid with
              | some t =>
                  rw [hf] at h
                  simp at h
                  subst h
                  exact (findActive_some _ _ _ _ hf).2.2.2
              | none =>
                  rw [hf] at h
                  exact ih _ _ _ _ _ _ h
          | other m =>
              rw [ho] at h
              exact ih _ _ _ _ _ _ h

lemma resolveLoop_creates_le (oracle : Nat → Option StoreErr)
    (aid sid : String) (fresh : TestSession) :
    ∀ (n attempt : Nat) (store : List TestSession)
      (lastErr : Option StoreErr) (creates : Nat) (delays : List Nat),
      (resolveLoop oracle aid sid fresh n attempt store lastErr creates
        delays).creates ≤ creates + n := by
  intro n
  induction n with
  | zero =>
      intro attempt store lastErr creates delays
      rw [resolveLoop_zero]
      cases findActive store aid sid <;> cases lastErr <;> simp
  | succ n ih =>
      intro attempt store lastErr creates delays
      rw [resolveLoop_succ]
      cases oracle attempt with
      | none => simp
      | some e =>
          cases e with
          | conflict =>
              cases findActive store aid sid with
              | some t => simp
              | none =>
                  calc (resolveLoop oracle aid sid fresh n (attempt + 1)
                        store (some .conflict) (creates + 1) _).creates
                      ≤ (creates + 1) + n := ih _ _ _ _ _
                    _ ≤ creates + (n + 1) := by omega
          | other m =>
              calc (resolveLoop oracle aid sid fresh n (attempt + 1)
                    store (some (.other m)) (creates + 1) _).creates
                  ≤ (creates + 1) + n := ih _ _ _ _ _
                _ ≤ creates + (n + 1) := by omega

/-- C3: for every `TestSession` and instant `now`, the remaining time
computed by `calculateRemainingTime` of `src/utils/testTimer.ts` equals
`max(0, durationMinutes * 60 - floor((now - startedAt) / 1000))` and is a
non-negative whole number of seconds; for a 30-minute session started at
`T = 0`, the value at `T + 29 min 59 s` is `1`, and at `T + 30 min 0 s` it
is `0` with `isTimeExpired` true. -/
theorem remainingSeconds_spec :
    (∀ (session : TestSession) (now : Int),
        calculateRemainingTime session now =
          max 0 ((session.duration_minutes : Int) * 60 -
            floorDiv1000 (now - session.started_at)) ∧
        0 ≤ calculateRemainingTime session now) ∧
    calculateRemainingTime (mkNewSession "i" "a" "s" 0 30) 1799000 = 1 ∧
    calculateRemainingTime (mkNewSession "i" "a" "s" 0 30) 1800000 = 0 ∧
    isTimeExpired (mkNewSession "i" "a" "s" 0 30) 1800000 = true := by
  refine ⟨fun session now => ⟨remaining_eq session now, ?_⟩, by decide, by decide, by decide⟩
  rw [remaining_eq]
  exact le_max_left 0 _

/-- C10: the two `calculateRemainingTime` implementations —
`src/utils/testTimer.ts` (ceiling of the remaining milliseconds) and
`src/components/testTimer.ts` (duration minus floored elapsed seconds) —
are extensionally equal on every session and every integer-millisecond
instant. -/
theorem remaining_time_impls_equal :
    ∀ (session : TestSession) (now : Int),
      calculateRemainingTime session now = calculateRemainingTime2 session now :=
  remaining_eq

/-- C6: when the store already holds a session matching
(assessmentId, studentId, is_completed = false), `getOrCreateTestSession`
(utils version) returns that session immediately — no insert, no backoff,
store unchanged — and calling it twice in a row returns the identical
session both times and creates no duplicate. -/
theorem resolveSession_fast_path (uid aid fid : String) (dur : Nat)
    (now : Int) (oracle : Nat → Option StoreErr) (store : List TestSession)
    (s : TestSession) (hfind : findActive store aid uid = some s) :
    getOrCreateTestSession (some uid) none oracle store aid dur fid now =
      ⟨.ok s, store, 0, []⟩ ∧
    getOrCreateTestSession (some uid) none oracle
        (getOrCreateTestSession (some uid) none oracle store aid dur fid
          now).store aid dur fid now =
      ⟨.ok s, store, 0, []⟩ := by
  have h1 : getOrCreateTestSession (some uid) none oracle store aid dur fid
      now = ⟨.ok s, store, 0, []⟩ := by
    simp only [getOrCreateTestSession, hfind]
  refine ⟨h1, ?_⟩
  rw [h1]
  exact h1

/-- Witness for C6 at a concrete store holding one active session. -/
theorem resolveSession_fast_path_witness :
    getOrCreateTestSession (some "s") none (fun _ => none)
        [mkNewSession "i" "a" "s" 0 30] "a" 30 "j" 5 =
      ⟨.ok (mkNewSession "i" "a" "s" 0 30),
        [mkNewSession "i" "a" "s" 0 30], 0, []⟩ :=
  (resolveSession_fast_path "s" "a" "j" 30 5 (fun _ => none)
    [mkNewSession "i" "a" "s" 0 30] (mkNewSession "i" "a" "s" 0 30)
    (by decide)).1

/-- C7: every session returned by `getOrCreateTestSession` (utils version)
has `is_completed = false` — the lookup filters on `is_completed = false`
and a created row starts with `is_completed = false` — so a completed
session is never returned and its timer never resumed. -/
theorem resolveSession_excludes_completed (user : Option String)
    (ifErr : Option StoreErr) (oracle : Nat → Option StoreErr)
    (store : List TestSession) (aid fid : String) (dur : Nat) (now : Int) :
    (∀ s, (getOrCreateTestSession user ifErr oracle store aid dur fid
        now).result = .ok s → s.is_completed = false) ∧
    ∀ c, c.is_completed = true →
      (getOrCreateTestSession user ifErr oracle store aid dur fid
        now).result ≠ .ok c := by
  have main : ∀ s, (getOrCreateTestSession user ifErr oracle store aid dur
      fid now).result = .ok s → s.is_completed = false := by
    intro s h
    cases user with
    | none => simp [getOrCreateTestSession] at h
    | some uid =>
      cases ifErr with
      | some e => simp [getOrCreateTestSession] at h
      | none =>
        simp only [getOrCreateTestSession] at h
        cases hf : findActive store aid uid with
        | some t =>
            rw [hf] at h
            simp at h
            subst h
            exact (findActive_some _ _ _ _ hf).2.2.2
        | none =>
            rw [hf] at h
            exact resolveLoop_ok_not_completed oracle aid uid _ rfl
              _ _ _ _ _ _ _ h
  refine ⟨main, fun c hc hres => ?_⟩
  rw [main c hres] at hc
  cases hc

/-- Witness for C7: the resolver run on a store holding one active session
returns a non-completed session. -/
theorem resolveSession_excludes_completed_witness :
    (mkNewSession "i" "a" "s" 0 30).is_completed = false :=
  (resolveSession_excludes_completed (some "s") none (fun _ => none)
    [mkNewSession "i" "a" "s" 0 30] "a" "j" 30 5).1
    (mkNewSession "i" "a" "s" 0 30) rfl

/-- C5: when `createSession` fails with a conflict on every attempt and no
session ever becomes visible, `getOrCreateTestSession` (utils version)
performs exactly 3 creation attempts, waits 200·2^(attempt-1) ms before
each conflict-triggered re-query (200 ms on the first conflict), performs
the final unconditional re-query, and terminates failing with the last
underlying error; in general no run ever performs more than 3 creation
attempts. -/
theorem resolveSession_bounded_retry (uid aid fid : String) (dur : Nat)
    (now : Int) (oracle : Nat → Option StoreErr) (store : List TestSession)
    (h1 : oracle 1 = some .conflict) (h2 : oracle 2 = some .conflict)
    (h3 : oracle 3 = some .conflict)
    (hfind : findActive store aid uid = none) :
    getOrCreateTestSession (some uid) none oracle store aid dur fid now =
      ⟨.error (.store .conflict), store, 3, [200, 400, 800]⟩ ∧
    ∀ (user2 : Option String) (ifErr2 : Option StoreErr)
      (oracle2 : Nat → Option StoreErr) (store2 : List TestSession),
      (getOrCreateTestSession user2 ifErr2 oracle2 store2 aid dur fid
        now).creates ≤ 3 := by
  constructor
  · simp only [getOrCreateTestSession, hfind]
    norm_num [resolveLoop_succ, resolveLoop_zero, h1, h2, h3, hfind,
      backoffMs]
  · intro user2 ifErr2 oracle2 store2
    cases user2 with
    | none => simp [getOrCreateTestSession]
    | some uid2 =>
      cases ifErr2 with
      | some e => simp [getOrCreateTestSession]
      | none =>
        simp only [getOrCreateTestSession]
        cases hf : findActive store2 aid uid2 with
        | some t => simp
        | none =>
            have := resolveLoop_creates_le oracle2 aid uid2
              (mkNewSession fid aid uid2 now dur) 3 1 store2 none 0 []
            simpa using this

/-- Witness for C5: all three attempts conflict against an empty store. -/
theorem resolveSession_bounded_retry_witness :
    getOrCreateTestSession (some "s") none (fun _ => some .conflict)
        [] "a" 30 "j" 0 =
      ⟨.error (.store .conflict), [], 3, [200, 400, 800]⟩ ∧
    (getOrCreateTestSession (some "s") none (fun _ => none) [] "a" 30 "j"
      0).creates ≤ 3 := by
  have h := resolveSession_bounded_retry "s" "a" "j" 30 0
    (fun _ => some .conflict) [] rfl rfl rfl rfl
  exact ⟨h.1, h.2 (some "s") none (fun _ => none) []⟩

/-- C4 counterexample: with `createSession` failing on attempt 1 with a
non-conflict store error and succeeding on attempt 2, the utils resolver
does NOT propagate the error immediately — it waits a 200 ms backoff and
performs a second creation attempt, ending with a successfully created
session.  This refutes the claim that only the conflict class is retried. -/
theorem resolveSession_nonconflict_retried :
    getOrCreateTestSession (some "s") none
        (fun a => if a = 1 then some (.other "boom") else none)
        [] "a" 30 "j" 0 =
      ⟨.ok (mkNewSession "j" "a" "s" 0 30),
        [mkNewSession "j" "a" "s" 0 30], 2, [200]⟩ := by
  rfl

/-- C4 amended: a non-conflict `createSession` error is also retried (the
loop's own catch records it and, when attempt < 3, waits the same
exponential backoff before the next creation attempt, without the
post-conflict re-query); only after 3 failed attempts and an empty final
re-query does the last underlying error propagate. -/
theorem resolveSession_nonconflict_retry (uid aid fid m : String)
    (dur : Nat) (now : Int) (oracle : Nat → Option StoreErr)
    (store : List TestSession)
    (h1 : oracle 1 = some (.other m)) (h2 : oracle 2 = some (.other m))
    (h3 : oracle 3 = some (.other m))
    (hfind : findActive store aid uid = none) :
    getOrCreateTestSession (some uid) none oracle store aid dur fid now =
      ⟨.error (.store (.other m)), store, 3, [200, 400]⟩ := by
  simp only [getOrCreateTestSession, hfind]
  norm_num [resolveLoop_succ, resolveLoop_zero, h1, h2, h3, hfind,
    backoffMs]

/-- Witness for the amended C4: three non-conflict failures against an
empty store. -/
theorem resolveSession_nonconflict_retry_witness :
    getOrCreateTestSession (some "s") none (fun _ => some (.other "x"))
        [] "a" 30 "j" 0 =
      ⟨.error (.store (.other "x")), [], 3, [200, 400]⟩ :=
  resolveSession_nonconflict_retry "s" "a" "j" "x" 30 0
    (fun _ => some (.other "x")) [] rfl rfl rfl rfl

/-- C9 counterexample: when the store rejects the single insert with a
uniqueness-constraint `ConflictError`, the retry-less
`getOrCreateTestSession` of `src/components/testTimer.ts` does fail
immediately (one creation attempt, no backoff, no re-query), but what it
surfaces is the freshly constructed generic
`Error('Failed to create test session')`, not the raw `ConflictError`. -/
theorem retryless_surfaces_generic_error :
    getOrCreateTestSession2 (some "s") none (some .conflict) [] "a" 30 "j"
        0 =
      ⟨.error (.generic "Failed to create test session"), [], 1, []⟩ ∧
    (getOrCreateTestSession2 (some "s") none (some .conflict) [] "a" 30 "j"
        0).result ≠ .error (.store .conflict) := by
  constructor
  · rfl
  · intro h
    simp [getOrCreateTestSession2, findActive] at h

/-- C9 amended: the retry-less implementation performs no conflict
detection, no backoff wait, and no post-conflict re-query: on every
execution in which the insert is rejected — including a genuine-race
`ConflictError` — it fails immediately after exactly one creation
attempt, surfacing a generic `Error('Failed to create test session')`
(the underlying conflict is logged but not rethrown), with the store
unchanged. -/
theorem retryless_fails_immediately (uid aid fid : String) (dur : Nat)
    (now : Int) (e : StoreErr) (store : List TestSession)
    (hfind : findActive store aid uid = none) :
    getOrCreateTestSession2 (some uid) none (some e) store aid dur fid
        now =
      ⟨.error (.generic "Failed to create test session"), store, 1, []⟩ := by
  simp only [getOrCreateTestSession2, Option.getD]
  rw [hfind]

/-- Witness for the amended C9: a conflict against an empty store. -/
theorem retryless_fails_immediately_witness :
    getOrCreateTestSession2 (some "s") none (some .conflict) [] "a" 30 "j"
        0 =
      ⟨.error (.generic "Failed to create test session"), [], 1, []⟩ :=
  retryless_fails_immediately "s" "a" "j" 30 0 .conflict [] rfl

/-- C8: `submitTest` marks the session completed (via
`completeTestSession`, which sets `is_completed = true` and `submitted_at`)
strictly before inserting the `submissions` row; if the completion write
succeeds but the insert fails, the error is raised to the caller, the
session is left completed, and no Submission row for it exists — the
completion is not rolled back. -/
theorem finalize_completion_before_submission
    (sessions : List TestSession) (submissions : List Submission)
    (aid sid : String) (session : TestSession) (questions : List Question)
    (answers : List (String × String)) (isAuto : Bool) (now : Int)
    (e : StoreErr)
    (hnosub : ∀ sub ∈ submissions, sub.test_session_id ≠ session.id) :
    (submitTest sessions submissions aid sid session questions answers
        isAuto now none (some e)).result = .error e ∧
    (submitTest sessions submissions aid sid session questions answers
        isAuto now none (some e)).sessions =
      sessions.map (fun s =>
        if s.id == session.id then
          { s with submitted_at := some now, is_completed := true }
        else s) ∧
    (∀ s ∈ (submitTest sessions submissions aid sid session questions
        answers isAuto now none (some e)).sessions,
        s.id = session.id → s.is_completed = true ∧
          s.submitted_at = some now) ∧
    (submitTest sessions submissions aid sid session questions answers
        isAuto now none (some e)).submissions = submissions ∧
    ∀ sub ∈ (submitTest sessions submissions aid sid session questions
        answers isAuto now none (some e)).submissions,
      sub.test_session_id ≠ session.id := by
  refine ⟨rfl, rfl, ?_, rfl, hnosub⟩
  intro s hs hid
  simp only [submitTest, completeTestSession, List.mem_map] at hs
  obtain ⟨t, _, ht⟩ := hs
  by_cases hteq : t.id == session.id
  · rw [hteq] at ht
    simp at ht
    rw [← ht]
    exact ⟨rfl, rfl⟩
  · rw [Bool.not_eq_true] at hteq
    rw [hteq] at ht
    simp at ht
    rw [← ht] at hid
    rw [hid] at hteq
    simp at hteq

/-- Witness for C8: completion succeeds, the submission insert fails. -/
theorem finalize_completion_before_submission_witness :
    (submitTest [mkNewSession "i" "a" "s" 0 30] [] "a" "s"
        (mkNewSession "i" "a" "s" 0 30) [] [] false 5 none
        (some (.other "db down"))).result = .error (.other "db down") ∧
    (submitTest [mkNewSession "i" "a" "s" 0 30] [] "a" "s"
        (mkNewSession "i" "a" "s" 0 30) [] [] false 5 none
        (some (.other "db down"))).submissions = [] :=
  ⟨(finalize_completion_before_submission [mkNewSession "i" "a" "s" 0 30]
      [] "a" "s" (mkNewSession "i" "a" "s" 0 30) [] [] false 5
      (.other "db down") (by simp)).1,
   (finalize_completion_before_submission [mkNewSession "i" "a" "s" 0 30]
      [] "a" "s" (mkNewSession "i" "a" "s" 0 30) [] [] false 5
      (.other "db down") (by simp)).2.2.2.1⟩

lemma driverStep_inv (s : DriverState) (e : DriverEvent)
    (he : e ≠ DriverEvent.finalizeDone false) (h : DriverInv s) :
    DriverInv (driverStep s e) := by
  obtain ⟨h1, h2, h3⟩ := h
  cases e with
  | tick r =>
      simp only [driverStep, tickEvent]
      by_cases hta : s.timerActive = false
      · rw [if_pos hta]
        exact ⟨h1, h2, h3⟩
      · rw [if_neg hta]
        have hta2 : s.timerActive = true := by
          revert hta; cases s.timerActive <;> simp
        by_cases hr : r ≤ 0
        · rw [if_pos hr]
          obtain ⟨hsub, hcnt⟩ := h2 hta2
          simp [DriverInv, invokeFinalize, suppressTick, hcnt]
        · rw [if_neg hr]
          exact ⟨h1, h2, h3⟩
  | manualSubmit c =>
      simp only [driverStep, manualSubmitEvent]
      by_cases hnav : s.navigated = true
      · rw [if_pos hnav]
        exact ⟨h1, h2, h3⟩
      · rw [if_neg hnav]
        have hnav2 : s.navigated = false := by
          revert hnav; cases s.navigated <;> simp
        by_cases hsub : s.submitting = true
        · rw [if_pos hsub]
          exact ⟨h1, h2, h3⟩
        · rw [if_neg hsub]
          have hsub2 : s.submitting = false := by
            revert hsub; cases s.submitting <;> simp
          by_cases hc : c = false
          · rw [if_pos hc]
            exact ⟨h1, h2, h3⟩
          · rw [if_neg hc]
            have hcnt : s.finalizeCount = 0 := by
              by_contra hne
              have hge : 1 ≤ s.finalizeCount := Nat.one_le_iff_ne_zero.mpr hne
              rcases h3 hge with hx | hx
              · rw [hx] at hsub2; cases hsub2
              · rw [hx] at hnav2; cases hnav2
            simp [DriverInv, invokeFinalize, hcnt]
  | finalizeDone ok =>
      have hok : ok = true := by
        cases ok
        · exact (he rfl).elim
        · rfl
      subst hok
      simp only [driverStep, finalizeDoneEvent]
      by_cases hsub : s.submitting = false
      · rw [if_pos hsub]
        exact ⟨h1, h2, h3⟩
      · rw [if_neg hsub, if_pos trivial]
        refine ⟨h1, ?_, fun hge => Or.inr rfl⟩
        intro hta
        simp at hta

lemma runDriver_inv (events : List DriverEvent) :
    ∀ s : DriverState, DriverInv s →
      (∀ e ∈ events, e ≠ DriverEvent.finalizeDone false) →
      DriverInv (runDriver s events) := by
  induction events with
  | nil =>
      intro s h _
      exact h
  | cons e es ih =>
      intro s h hnf
      exact ih _
        (driverStep_inv s e (hnf e (List.mem_cons_self e es)) h)
        (fun e2 he2 => hnf e2 (List.mem_cons_of_mem _ he2))

/-- C2 counterexample: the trace that the source really allows — a manual
submit whose submission insert fails: `submitTest` is entered (count 1);
its `catch` shows the error and `finally { setSubmitting(false) }`
(`TestTaking.tsx` line 196) resets `submitting`, upon which the timer
`useEffect` re-installs the interval because `isTimeExpired` is still
false; the later expiry tick then calls `handleAutoSubmit` →
`submitTest(true)` a second time (count 2).  So `submitTest` does not
execute at most once per session, refuting the claim as stated. -/
theorem countdown_finalize_twice_after_failure :
    (runDriver runningInit
        [.manualSubmit true, .finalizeDone false,
          .tick 0]).finalizeCount = 2 ∧
    (runDriver runningInit
        [.manualSubmit true, .finalizeDone false]).timerActive = true := by
  constructor <;> rfl

/-- C2 amended: in the countdown driver of `src/components/TestTaking.tsx`,
the expiry branch of the tick callback disables the recurring tick
(`clearInterval`) before invoking the finalize action, and along every
sequence of tick, manual-submit, and successful-finalize events from the
Running state, the finalize body (`submitTest`) is entered at most once —
the expiry/manual race alone cannot double-fire.  Only a failed finalize
(whose `finally` resets `submitting`, letting the timer `useEffect`
re-install the interval) enables a further `submitTest` execution. -/
theorem countdown_finalize_once_without_failure :
    (∀ events : List DriverEvent,
        (∀ e ∈ events, e ≠ DriverEvent.finalizeDone false) →
        (runDriver runningInit events).finalizeCount ≤ 1) ∧
    (∀ s : DriverState, (suppressTick s).timerActive = false) ∧
    ∀ (s : DriverState) (r : Int), r ≤ 0 → s.timerActive = true →
      tickEvent s r = invokeFinalize (suppressTick s) := by
  refine ⟨fun events hnf =>
    (runDriver_inv events runningInit
      (by constructor <;> simp [runningInit]) hnf).1,
    fun s => rfl, ?_⟩
  intro s r hr hta
  simp [tickEvent, hta, hr]

/-- Witness for the amended C2: a trace where the expiry tick and a manual
submit are invoked in rapid succession (and a successful finalize ends the
run) still finalizes exactly once. -/
theorem countdown_finalize_once_without_failure_witness :
    (runDriver runningInit
        [.tick 1, .tick 0, .manualSubmit true, .finalizeDone true,
          .tick 0]).finalizeCount ≤ 1 ∧
    (suppressTick runningInit).timerActive = false ∧
    tickEvent runningInit 0 = invokeFinalize (suppressTick runningInit) :=
  ⟨countdown_finalize_once_without_failure.1
      [.tick 1, .tick 0, .manualSubmit true, .finalizeDone true, .tick 0]
      (by decide),
   countdown_finalize_once_without_failure.2.1 runningInit,
   countdown_finalize_once_without_failure.2.2 runningInit 0 (by decide)
     rfl⟩

lemma activeFor_append (l1 l2 : List TestSession) (aid sid : String) :
    activeFor (l1 ++ l2) aid sid =
      activeFor l1 aid sid ++ activeFor l2 aid sid := by
  simp [activeFor, List.filter_append]

lemma findActive_some_mem_active (store : List TestSession)
    (aid sid : String) (s : TestSession)
    (h : findActive store aid sid = some s) :
    s ∈ activeFor store aid sid := by
  unfold findActive at h
  have hp := List.find?_some h
  have hm := List.mem_of_find?_eq_some h
  unfold activeFor
  exact List.mem_filter.mpr ⟨hm, hp⟩

lemma mkNewSession_active (i aid sid : String) (t : Int) (dur : Nat) :
    activeFor [mkNewSession i aid sid t dur] aid sid =
      [mkNewSession i aid sid t dur] := by
  simp [activeFor, mkNewSession]

lemma updateClient_eq_done {cl : Nat → ClientPC} {i : Nat} {pc : ClientPC}
    {j : Nat} {t : TestSession}
    (h : updateClient cl i pc j = .doneOk t) :
    pc = .doneOk t ∨ cl j = .doneOk t := by
  unfold updateClient at h
  by_cases hij : j = i
  · rw [if_pos hij] at h
    exact Or.inl h
  · rw [if_neg hij] at h
    exact Or.inr h

lemma step_inv {aid sid : String} {dur : Nat} {ids : Nat → String}
    {σ σ2 : SysState} (hstep : Step aid sid dur ids σ σ2)
    (h : ResolveInv aid sid σ) : ResolveInv aid sid σ2 := by
  obtain ⟨hlen, hdone⟩ := h
  cases hstep with
  | findFound i s hpc hfind =>
      refine ⟨hlen, ?_⟩
      intro j t hj
      rcases updateClient_eq_done hj with hpc2 | hcl
      · injection hpc2 with hst
        rw [← hst]
        exact findActive_some_mem_active _ _ _ _ hfind
      · exact hdone j t hcl
  | findNone i hpc hfind =>
      refine ⟨hlen, ?_⟩
      intro j t hj
      rcases updateClient_eq_done hj with hpc2 | hcl
      · cases hpc2
      · exact hdone j t hcl
  | createOk i a t hpc hfind =>
      have hemp : activeFor σ.store aid sid = [] :=
        findActive_none _ _ _ hfind
      have hact : activeFor
          (σ.store ++ [mkNewSession (ids i) aid sid t dur]) aid sid =
          [mkNewSession (ids i) aid sid t dur] := by
        rw [activeFor_append, hemp, mkNewSession_active, List.nil_append]
      constructor
      · show (activeFor
            (σ.store ++ [mkNewSession (ids i) aid sid t dur]) aid
            sid).length ≤ 1
        rw [hact]
        simp
      · intro j u hj
        rcases updateClient_eq_done hj with hpc2 | hcl
        · injection hpc2 with hst
          show u ∈ activeFor
            (σ.store ++ [mkNewSession (ids i) aid sid t dur]) aid sid
          rw [hact, ← hst]
          simp
        · have hmem := hdone j u hcl
          rw [hemp] at hmem
          cases hmem
  | createConflict i a s hpc hfind =>
      refine ⟨hlen, ?_⟩
      intro j t hj
      rcases updateClient_eq_done hj with hpc2 | hcl
      · cases hpc2
      · exact hdone j t hcl
  | refetchFound i a s hpc hfind =>
      refine ⟨hlen, ?_⟩
      intro j t hj
      rcases updateClient_eq_done hj with hpc2 | hcl
      · injection hpc2 with hst
        rw [← hst]
        exact findActive_some_mem_active _ _ _ _ hfind
      · exact hdone j t hcl
  | refetchNoneRetry i a hpc hfind hlt =>
      refine ⟨hlen, ?_⟩
      intro j t hj
      rcases updateClient_eq_done hj with hpc2 | hcl
      · cases hpc2
      · exact hdone j t hcl
  | refetchNoneFinal i hpc hfind =>
      refine ⟨hlen, ?_⟩
      intro j t hj
      rcases updateClient_eq_done hj with hpc2 | hcl
      · cases hpc2
      · exact hdone j t hcl
  | finalFound i s hpc hfind =>
      refine ⟨hlen, ?_⟩
      intro j t hj
      rcases updateClient_eq_done hj with hpc2 | hcl
      · injection hpc2 with hst
        rw [← hst]
        exact findActive_some_mem_active _ _ _ _ hfind
      · exact hdone j t hcl
  | finalNone i hpc hfind =>
      refine ⟨hlen, ?_⟩
      intro j t hj
      rcases updateClient_eq_done hj with hpc2 | hcl
      · cases hpc2
      · exact hdone j t hcl

lemma reachable_inv {aid sid : String} {dur : Nat} {ids : Nat → String}
    {σ0 σ : SysState} (hr : Reachable aid sid dur ids σ0 σ)
    (h0 : ResolveInv aid sid σ0) : ResolveInv aid sid σ := by
  induction hr with
  | refl => exact h0
  | tail σ2 σ3 hreach hstep ih => exact step_inv hstep ih

lemma eq_of_mem_of_length_le_one {α : Type} {l : List α}
    (h : l.length ≤ 1) {a b : α} (ha : a ∈ l) (hb : b ∈ l) : a = b := by
  match l with
  | [] => cases ha
  | [x] =>
      rw [List.mem_singleton] at ha hb
      rw [ha, hb]
  | x :: y :: rest => simp at h

/-- C1: for any number of clients concurrently running the retry-capable
`getOrCreateTestSession` for one (assessmentId, studentId) pair against a
store with no active row for that pair — the store's uniqueness constraint
rejecting a duplicate insert as a conflict — every reachable state has at
most one active row for the pair; once any caller has been returned a
session, exactly one such row exists (exactly one row was ever created);
and any two callers that finished successfully were returned the very same
session, hence the same id. -/
theorem concurrent_resolve_unique (aid sid : String) (dur : Nat)
    (ids : Nat → String) (store0 : List TestSession) (σ : SysState)
    (hempty : activeFor store0 aid sid = [])
    (hreach : Reachable aid sid dur ids ⟨store0, fun _ => .start⟩ σ) :
    (activeFor σ.store aid sid).length ≤ 1 ∧
    (∀ i s, σ.clients i = .doneOk s →
      (activeFor σ.store aid sid).length = 1) ∧
    ∀ i j s t, σ.clients i = .doneOk s → σ.clients j = .doneOk t →
      s.id = t.id ∧ s = t := by
  have h0 : ResolveInv aid sid ⟨store0, fun _ => .start⟩ := by
    refine ⟨by rw [hempty]; simp, ?_⟩
    intro i s h
    cases h
  obtain ⟨hlen, hdone⟩ := reachable_inv hreach h0
  refine ⟨hlen, fun i s h => ?_, fun i j s t hi hj => ?_⟩
  · have hm := hdone i s h
    have hpos : 0 < (activeFor σ.store aid sid).length :=
      List.length_pos_of_mem hm
    omega
  · have hst : s = t :=
      eq_of_mem_of_length_le_one hlen (hdone i s hi) (hdone j t hj)
    exact ⟨by rw [hst], hst⟩

/-- Witness for C1: a concrete two-client race — client 0 looks up
(nothing there), inserts successfully; client 1 then finds client 0's row
— the reachable final state has exactly one active row. -/
theorem concurrent_resolve_unique_witness :
    (activeFor [mkNewSession "k" "a" "s" 0 30] "a" "s").length = 1 := by
  have s1 : Step "a" "s" 30 (fun _ => "k")
      ⟨[], fun _ => .start⟩
      ⟨[], updateClient (fun _ => .start) 0 (.creating 1)⟩ :=
    Step.findNone _ 0 rfl rfl
  have s2 : Step "a" "s" 30 (fun _ => "k")
      ⟨[], updateClient (fun _ => .start) 0 (.creating 1)⟩
      ⟨[] ++ [mkNewSession "k" "a" "s" 0 30],
        updateClient (updateClient (fun _ => .start) 0 (.creating 1)) 0
          (.doneOk (mkNewSession "k" "a" "s" 0 30))⟩ :=
    Step.createOk _ 0 1 0 rfl rfl
  have s3 : Step "a" "s" 30 (fun _ => "k")
      ⟨[] ++ [mkNewSession "k" "a" "s" 0 30],
        updateClient (updateClient (fun _ => .start) 0 (.creating 1)) 0
          (.doneOk (mkNewSession "k" "a" "s" 0 30))⟩
      ⟨[] ++ [mkNewSession "k" "a" "s" 0 30],
        updateClient
          (updateClient (updateClient (fun _ => .start) 0 (.creating 1)) 0
            (.doneOk (mkNewSession "k" "a" "s" 0 30)))
          1 (.doneOk (mkNewSession "k" "a" "s" 0 30))⟩ :=
    Step.findFound _ 1 (mkNewSession "k" "a" "s" 0 30) rfl (by decide)
  have hreach : Reachable "a" "s" 30 (fun _ => "k")
      ⟨[], fun _ => .start⟩
      ⟨[] ++ [mkNewSession "k" "a" "s" 0 30],
        updateClient
          (updateClient (updateClient (fun _ => .start) 0 (.creating 1)) 0
            (.doneOk (mkNewSession "k" "a" "s" 0 30)))
          1 (.doneOk (mkNewSession "k" "a" "s" 0 30))⟩ :=
    Reachable.tail _ _
      (Reachable.tail _ _ (Reachable.tail _ _ Reachable.refl s1) s2)
      s3
  exact (concurrent_resolve_unique "a" "s" 30 (fun _ => "k") [] _ rfl
    hreach).2.1 1 (mkNewSession "k" "a" "s" 0 30) rfl

end SmartEdu
